import Mathlib

/-!
Shallow embedding of the pdf-rag-service core (src/main.py,
src/agents/pdf_chain.py, src/models/embeddings_faiss.py,
src/models/pdf_processor.py), and theorems settling the claims about it.

Modelling conventions:
* The process-wide Python dict `vectorstore_cache` is passed explicitly as a
  `Cache` (an insertion-ordered association list, mirroring dict iteration
  order); every endpoint returns its result together with the cache after the
  call, so "the cache is unchanged" is statable.
* External collaborators (PDF text extraction, the OpenAI embedding provider,
  JSON history parsing, the LLM generation step) are passed as function
  parameters, fallible ones returning `Except`/`Option`.
* Python `len` on `str` is `String.length`; Python truthiness of a string is
  the `= ""` test; `raise HTTPException(code, detail)` is `Except.error`.
-/

/-- A conversation message (`class Message(BaseModel)` in src/main.py). -/
structure Message where
  role : String
  content : String
deriving DecidableEq, Repr

/-- The value stored in `vectorstore_cache[file_id]` by `index_pdf`
(src/main.py lines 86-90): exactly the keys `text`, `file_name`,
`text_length`, nothing else (in particular, no index object). -/
structure CacheRecord where
  text : String
  file_name : String
  text_length : Nat
deriving DecidableEq, Repr

/-- The process-wide `vectorstore_cache` dict, as an insertion-ordered
association list from `file_id` to its record. -/
abbrev Cache := List (String × CacheRecord)

/-- A FastAPI `HTTPException(status_code, detail)`. -/
structure HTTPError where
  status_code : Nat
  detail : String
deriving DecidableEq, Repr

/-- `str(e)` of an `HTTPException`, used when `except Exception` re-wraps it
as a 500 error. -/
def HTTPError.toMessage (e : HTTPError) : String :=
  toString e.status_code ++ ": " ++ e.detail

/-- Response dict of `POST /index_pdf`. The already-indexed branch returns no
`text_length` key, hence the `Option`. -/
structure IndexResponse where
  file_id : String
  file_name : String
  text_length : Option Nat
  already_indexed : Bool
deriving DecidableEq, Repr

/-- Body of the `try:` block of `index_pdf` (src/main.py lines 60-103).
`content` is the uploaded file's bytes, `extract` is the black-box
`extract_text_from_pdf` collaborator (src/models/pdf_processor.py),
`filename` is `file.filename`. Steps, in source order: reject empty file
content; return early with `already_indexed = True` when `file_id` is cached;
extract the text; reject empty extraction; store the record and return it. -/
def index_pdf_inner (cache : Cache) (file_id : String) (content : String)
    (extract : String → String) (filename : String) :
    Except HTTPError IndexResponse × Cache :=
  if content = "" then
    (.error ⟨400, "Empty file"⟩, cache)
  else if (cache.lookup file_id).isSome then
    (.ok ⟨file_id, filename, none, true⟩, cache)
  else
    let text := extract content
    if text = "" then
      (.error ⟨400, "Could not extract text from PDF"⟩, cache)
    else
      (.ok ⟨file_id, filename, some text.length, false⟩,
        cache ++ [(file_id, ⟨text, filename, text.length⟩)])

/-- `POST /index_pdf` (src/main.py lines 54-107). The endpoint's
`except Exception` clause catches every raised exception — `HTTPException`
included, since FastAPI's `HTTPException` subclasses `Exception` and the
handler has no separate `except HTTPException` — and re-raises it as
`HTTPException(500, str(e))`. -/
def index_pdf (cache : Cache) (file_id : String) (content : String)
    (extract : String → String) (filename : String) :
    Except HTTPError IndexResponse × Cache :=
  match index_pdf_inner cache file_id content extract filename with
  | (.error e, c) => (.error ⟨500, e.toMessage⟩, c)
  | (.ok r, c) => (.ok r, c)

/-- An embedding vector (the black-box provider's fixed-length numeric
vector, integer components in the model). -/
abbrev Vec := List Int

/-- Modelled from the spec: the Text Chunker (§4.1) is the external library
class `RecursiveCharacterTextSplitter(chunk_size=1000, chunk_overlap=200)`
used in src/models/embeddings_faiss.py; its source is not part of this
repository. Modelled with the hard-character-cut final fallback of §4.1:
windows of 1000 characters, adjacent windows overlapping by 200 characters
(so each window starts 800 characters after the previous one). The `fuel`
argument only bounds recursion. -/
def chunksAux : Nat → List Char → List (List Char)
  | 0, _ => []
  | _ + 1, [] => []
  | fuel + 1, cs =>
    if cs.length ≤ 1000 then [cs]
    else cs.take 1000 :: chunksAux fuel (cs.drop 800)

/-- `splitter.split_text(text)` of src/models/embeddings_faiss.py line 14
(external library call, modelled — see `chunksAux`). Empty text yields no
chunks; non-empty text yields its windows. -/
def split_text (text : String) : List String :=
  (chunksAux (text.length + 1) text.data).map fun cs => String.mk cs

/-- The failures of `create_faiss_index` (src/models/embeddings_faiss.py):
the two `ValueError`s raised there, and a failure of the external embedding
provider (`FAISS.from_documents(docs, embeddings)` embeds every chunk).
These are the spec's `EmptyInputError`, `NoChunksProducedError` and
`EmbeddingProviderError`. -/
inductive IndexError where
  | emptyInput
  | noChunks
  | embeddingProvider (msg : String)
deriving DecidableEq, Repr

/-- `str(e)` of an `IndexError` (the `ValueError` messages of
src/models/embeddings_faiss.py lines 11 and 17). -/
def IndexError.message : IndexError → String
  | .emptyInput => "Cannot create index from empty text."
  | .noChunks => "Text was too short to be split into chunks."
  | .embeddingProvider msg => msg

/-- The FAISS vector store built by `create_faiss_index`: each chunk's text
with its embedding vector, in chunk order. -/
structure Vectorstore where
  docs : List (String × Vec)
deriving DecidableEq, Repr

/-- `create_faiss_index(text)` (src/models/embeddings_faiss.py lines 9-22),
with the module-global `embeddings` provider passed as the parameter
`embed`. Rejects empty text, splits, rejects an empty chunk list, embeds
every chunk (failing with `EmbeddingProviderError` when the provider fails),
and returns the store. -/
def create_faiss_index (embed : String → Except String Vec) (text : String) :
    Except IndexError Vectorstore :=
  if text = "" then .error .emptyInput
  else
    let chunks := split_text text
    if chunks.isEmpty then .error .noChunks
    else
      match chunks.mapM embed with
      | .error e => .error (.embeddingProvider e)
      | .ok vecs => .ok ⟨chunks.zip vecs⟩

/-- The retriever returned by `get_retriever`
(src/models/embeddings_faiss.py lines 24-25): a vector store plus the
`search_kwargs` value `k`. -/
structure Retriever where
  vectorstore : Vectorstore
  k : Nat
deriving DecidableEq, Repr

/-- `get_retriever(vectorstore)` (src/models/embeddings_faiss.py lines
24-25): `vectorstore.as_retriever(search_kwargs={"k": 3})`. -/
def get_retriever (vs : Vectorstore) : Retriever :=
  ⟨vs, 3⟩

/-- Similarity of two embedding vectors, as an inner product. -/
def dot : Vec → Vec → Int
  | a :: as, b :: bs => a * b + dot as bs
  | _, _ => 0

/-- Ordering of scored chunks by decreasing similarity score. -/
def byScore (a b : String × Int) : Prop := b.2 ≤ a.2

instance : DecidableRel byScore := fun a b => Int.decLe b.2 a.2

instance : IsTotal (String × Int) byScore := ⟨fun a b => Int.le_total b.2 a.2⟩

instance : IsTrans (String × Int) byScore := ⟨fun _ _ _ h1 h2 => le_trans h2 h1⟩

/-- Modelled from the spec: the similarity search of the external FAISS
vector store (§4.3) — the retriever's search is library code, not part of
this repository. Scores every stored chunk against the query's embedding
vector, orders by decreasing similarity, and keeps the first `k`. -/
def retrieveScored (qv : Vec) (vs : Vectorstore) (k : Nat) :
    List (String × Int) :=
  (List.insertionSort byScore (vs.docs.map fun d => (d.1, dot qv d.2))).take k

/-- The retrieval step: embed the query with the same provider, then return
the `k` most similar chunk texts in decreasing-similarity order (the spec's
`retrieve(index, query, k)`, §4.3; search itself modelled — see
`retrieveScored`). -/
def retrieve (embed : String → Except String Vec) (r : Retriever)
    (q : String) : Except IndexError (List String) :=
  match embed q with
  | .error e => .error (.embeddingProvider e)
  | .ok qv => .ok ((retrieveScored qv r.vectorstore r.k).map Prod.fst)

/-- The failures of `create_pdf_chain` (src/agents/pdf_chain.py): the
`ValueError` raised when `OPENAI_API_KEY` is falsy, or a failure propagated
from `create_faiss_index`. -/
inductive ChainError where
  | noApiKey
  | index (e : IndexError)
deriving DecidableEq, Repr

/-- `str(e)` of a `ChainError` (the `ValueError` message of
src/agents/pdf_chain.py line 10, or the underlying index error's). -/
def ChainError.message : ChainError → String
  | .noApiKey => "OPENAI_API_KEY not found."
  | .index e => e.message

/-- The retrieval chain returned by `create_pdf_chain`
(src/agents/pdf_chain.py lines 39-42): its retrieval half. The LLM, the
prompt and the document-combining half are the black-box generation
provider, supplied at invocation time as the `gen` parameter of
`chain_ainvoke`. -/
structure RagChain where
  retriever : Retriever
deriving DecidableEq, Repr

/-- `create_pdf_chain(text)` (src/agents/pdf_chain.py lines 8-42), with the
config global `OPENAI_API_KEY` passed as `apiKey` (`none` for
unset-or-empty, since Python tests its truthiness) and the embedding
provider as `embed`. Rejects a missing key, builds a fresh FAISS index from
`text`, and wraps its `k = 3` retriever into the chain. -/
def create_pdf_chain (apiKey : Option String)
    (embed : String → Except String Vec) (text : String) :
    Except ChainError RagChain :=
  match apiKey with
  | none => .error .noApiKey
  | some _ =>
    match create_faiss_index embed text with
    | .error e => .error (.index e)
    | .ok vectorstore => .ok ⟨get_retriever vectorstore⟩

/-- The dict returned by `chain.ainvoke` of a `create_retrieval_chain`
chain: the `input`, the retrieved `context` documents, and the generated
`answer` — `none` when the provider returns no answer field. -/
structure RagResult where
  input : String
  context : List String
  answer : Option String
deriving DecidableEq, Repr

/-- `await chain.ainvoke({"input": full_query})` (src/main.py line 139):
retrieve context for the input with the chain's retriever, then run the
generation provider `gen` on the context and the input. -/
def chain_ainvoke (embed : String → Except String Vec)
    (gen : List String → String → Option String) (chain : RagChain)
    (input : String) : Except IndexError RagResult :=
  match retrieve embed chain.retriever input with
  | .error e => .error e
  | .ok ctx => .ok ⟨input, ctx, gen ctx input⟩

/-- `format_history_for_context(messages)` (src/main.py lines 41-51): empty
list renders to the empty string; otherwise one line per message —
`"User: <content>"` when the role is `"user"`, `"Assistant: <content>"`
otherwise — joined by newlines in input order. -/
def format_history_for_context (messages : List Message) : String :=
  if messages.isEmpty then ""
  else
    String.intercalate "\n"
      (messages.map fun msg =>
        (if msg.role = "user" then "User" else "Assistant") ++ ": " ++
          msg.content)

/-- The `full_query` computed by `query` (src/main.py lines 133-137): the
rendered history framed as a contextual preamble before the current
question when `messages` is non-empty, the query verbatim otherwise. -/
def effective_query (messages : List Message) (q : String) : String :=
  if messages.isEmpty then q
  else
    "Previous conversation:\n" ++ format_history_for_context messages ++
      "\n\nCurrent question: " ++ q

/-- `POST /query` (src/main.py lines 110-152), with the black boxes as
parameters: `parse` is `json.loads` plus `Message(**msg)` validation
(`none` for a malformed history), `embed` the embedding provider, `gen`
the generation provider. Steps, in source order: 404 when `file_id` is not
cached; 400 when the history does not parse; build a fresh chain from the
cached text; compute the effective query; invoke the chain; return the
answer, substituting `"No answer found."` when the result has no answer
field. `except HTTPException: raise` passes the 404/400 through unwrapped;
`except Exception` wraps chain failures as 500 with `str(e)`. -/
def query (cache : Cache) (apiKey : Option String)
    (embed : String → Except String Vec)
    (parse : String → Option (List Message))
    (gen : List String → String → Option String)
    (file_id q chat_history : String) : Except HTTPError String × Cache :=
  match cache.lookup file_id with
  | none => (.error ⟨404, "File not indexed. Call /index_pdf first."⟩, cache)
  | some cached =>
    match parse chat_history with
    | none => (.error ⟨400, "Invalid chat_history"⟩, cache)
    | some messages =>
      match create_pdf_chain apiKey embed cached.text with
      | .error e => (.error ⟨500, e.message⟩, cache)
      | .ok chain =>
        match chain_ainvoke embed gen chain (effective_query messages q) with
        | .error e => (.error ⟨500, e.message⟩, cache)
        | .ok result => (.ok (result.answer.getD "No answer found."), cache)

/-- `DELETE /cache/{file_id}` (src/main.py lines 155-167): when `file_id`
is cached, delete its entry and report the removed record's `file_name`;
otherwise 404. -/
def delete_from_cache (cache : Cache) (file_id : String) :
    Except HTTPError String × Cache :=
  match cache.lookup file_id with
  | some info =>
    (.ok ("Removed " ++ info.file_name ++ " from cache"),
      cache.filter fun p => p.1 != file_id)
  | none => (.error ⟨404, "File not found in cache"⟩, cache)

/-- One entry of the `files` list of `GET /cache_stats`. -/
structure FileStat where
  file_id : String
  name : String
  text_length : Nat
deriving DecidableEq, Repr

/-- The response of `GET /cache_stats` (src/main.py lines 179-191). -/
structure CacheStats where
  indexed_files : Nat
  files : List FileStat
deriving DecidableEq, Repr

/-- `GET /cache_stats` (src/main.py lines 179-191): the cache's size and
one `(file_id, name, text_length)` summary per entry, in dict order. -/
def cache_stats (cache : Cache) : CacheStats :=
  ⟨cache.length, cache.map fun p => ⟨p.1, p.2.file_name, p.2.text_length⟩⟩

/-- `POST /clear_cache` (src/main.py lines 194-199): count the entries,
clear the dict, report the count. -/
def clear_cache (cache : Cache) : String × Cache :=
  ("Cleared " ++ toString cache.length ++ " files from cache", [])

/-! ### Helper lemmas about association-list lookup -/

theorem lookup_append_singleton {β : Type} (l : List (String × β))
    (key : String) (v : β) (h : l.lookup key = none) :
    (l ++ [(key, v)]).lookup key = some v := by
  induction l with
  | nil => simp [List.lookup]
  | cons p t ih =>
    obtain ⟨k, b⟩ := p
    simp only [List.lookup, List.cons_append] at h ⊢
    cases hk : (key == k) with
    | true => rw [hk] at h; exact absurd h (by simp)
    | false => rw [hk] at h; exact ih h

/-! ### Claims -/

/-- C1 (counterexample): the claim says the record stored by a successful
`indexDocument` contains the semantic index built at indexing time, and
that the call fails whenever index building fails. In the code, index
building is never invoked at indexing time: with an embedding provider
that always fails — so that `create_faiss_index` fails on the very text
being indexed — `index_pdf` on a fresh id nevertheless succeeds, and the
stored record holds only the text, the file name and the text length. -/
theorem C1_counterexample :
    (create_faiss_index (fun _ => Except.error "embedding provider is down")
        "hello world").isOk = false
    ∧ index_pdf [] "doc1" "hello world" (fun s => s) "doc1.pdf"
        = (Except.ok ⟨"doc1", "doc1.pdf", some 11, false⟩,
            [("doc1", ⟨"hello world", "doc1.pdf", 11⟩)]) :=
  ⟨rfl, rfl⟩

/-- C1 (amended): for a fresh id, a successful `index_pdf` stores exactly
the record `⟨text, filename, text.length⟩` — the text from which an index
is later built at query time, with no index component — and the call fails
exactly when the uploaded content or the extracted text is empty (the
empty-input rejection), leaving the cache unchanged; chunking and
index-building failures do not arise at indexing time. -/
theorem C1_record_and_failures (cache : Cache) (file_id content : String)
    (extract : String → String) (filename : String)
    (habs : cache.lookup file_id = none) :
    (content ≠ "" → extract content ≠ "" →
      index_pdf cache file_id content extract filename
        = (Except.ok
            ⟨file_id, filename, some (extract content).length, false⟩,
          cache ++
            [(file_id,
              ⟨extract content, filename, (extract content).length⟩)]))
    ∧ (content = "" ∨ extract content = "" →
        (index_pdf cache file_id content extract filename).1.isOk = false
        ∧ (index_pdf cache file_id content extract filename).2 = cache) := by
  constructor
  · intro hc ht
    simp [index_pdf, index_pdf_inner, habs, hc, ht]
  · rintro (hc | ht)
    · simp [index_pdf, index_pdf_inner, hc, Except.isOk, Except.toBool]
    · by_cases hc : content = "" <;>
        simp [index_pdf, index_pdf_inner, habs, hc, ht, Except.isOk, Except.toBool]

/-- C1 (witness for the amended theorem): a concrete fresh-id success and a
concrete empty-extraction failure. -/
theorem C1_record_and_failures_witness :
    ([] : Cache).lookup "doc1" = none
    ∧ index_pdf [] "doc1" "hello" (fun s => s) "doc1.pdf"
        = (Except.ok ⟨"doc1", "doc1.pdf", some 5, false⟩,
            [("doc1", ⟨"hello", "doc1.pdf", 5⟩)])
    ∧ (index_pdf [] "doc2" "raw bytes" (fun _ => "") "doc2.pdf").1.isOk
        = false
    ∧ (index_pdf [] "doc2" "raw bytes" (fun _ => "") "doc2.pdf").2 = [] :=
  ⟨rfl,
    (C1_record_and_failures [] "doc1" "hello" (fun s => s) "doc1.pdf"
        rfl).1 (by decide) (by decide),
    ((C1_record_and_failures [] "doc2" "raw bytes" (fun _ => "") "doc2.pdf"
        rfl).2 (Or.inr rfl)).1,
    ((C1_record_and_failures [] "doc2" "raw bytes" (fun _ => "") "doc2.pdf"
        rfl).2 (Or.inr rfl)).2⟩

/-- C2: for a fresh id with non-empty content and non-empty extracted text,
the first `index_pdf` call succeeds with `already_indexed = false` (the
spec's `created = true`) and stores the record; the second call with the
same arguments returns `already_indexed = true` (`created = false`) and
leaves the cache — hence the stored record's `text_length` — exactly as
the first call left it. -/
theorem C2_idempotent_indexing (cache : Cache) (file_id content : String)
    (extract : String → String) (filename : String)
    (habs : cache.lookup file_id = none) (hc : content ≠ "")
    (ht : extract content ≠ "") :
    (index_pdf cache file_id content extract filename).1
      = Except.ok ⟨file_id, filename, some (extract content).length, false⟩
    ∧ (index_pdf cache file_id content extract filename).2.lookup file_id
        = some ⟨extract content, filename, (extract content).length⟩
    ∧ index_pdf (index_pdf cache file_id content extract filename).2 file_id
        content extract filename
        = (Except.ok ⟨file_id, filename, none, true⟩,
            (index_pdf cache file_id content extract filename).2) := by
  have h1 : index_pdf cache file_id content extract filename
      = (Except.ok ⟨file_id, filename, some (extract content).length, false⟩,
          cache ++
            [(file_id,
              ⟨extract content, filename, (extract content).length⟩)]) := by
    simp [index_pdf, index_pdf_inner, habs, hc, ht]
  have h2 : (cache ++
      [(file_id,
        (⟨extract content, filename, (extract content).length⟩ :
          CacheRecord))]).lookup file_id
      = some ⟨extract content, filename, (extract content).length⟩ :=
    lookup_append_singleton cache file_id _ habs
  refine ⟨by rw [h1], by rw [h1]; exact h2, ?_⟩
  rw [h1]
  simp [index_pdf, index_pdf_inner, hc, h2]

/-- C2 (witness): indexing `"doc1"` twice with the same five-character
upload yields `created = true` then `created = false` with the record
intact. -/
theorem C2_idempotent_indexing_witness :
    ([] : Cache).lookup "doc1" = none
    ∧ (index_pdf [] "doc1" "hello" (fun s => s) "doc1.pdf").1
        = Except.ok ⟨"doc1", "doc1.pdf", some 5, false⟩
    ∧ (index_pdf [] "doc1" "hello" (fun s => s) "doc1.pdf").2.lookup "doc1"
        = some ⟨"hello", "doc1.pdf", 5⟩
    ∧ index_pdf (index_pdf [] "doc1" "hello" (fun s => s) "doc1.pdf").2
        "doc1" "hello" (fun s => s) "doc1.pdf"
        = (Except.ok ⟨"doc1", "doc1.pdf", none, true⟩,
            (index_pdf [] "doc1" "hello" (fun s => s) "doc1.pdf").2) :=
  ⟨rfl,
    C2_idempotent_indexing [] "doc1" "hello" (fun s => s) "doc1.pdf" rfl
      (by decide) (by decide)⟩

/-- C3 (counterexample): the claim says `indexDocument(id, "", name)` fails
for every id. For an id that is already cached, the already-indexed early
return comes before text extraction, so a call whose upload extracts to
empty text succeeds with `already_indexed = true` instead of failing. -/
theorem C3_counterexample :
    ((fun _ => "") "raw bytes" : String) = ""
    ∧ (index_pdf [("doc1", ⟨"old text", "old.pdf", 8⟩)] "doc1" "raw bytes"
        (fun _ => "") "new.pdf").1
      = Except.ok ⟨"doc1", "new.pdf", none, true⟩ :=
  ⟨rfl, rfl⟩

/-- C3 (amended): for an id not already in the cache, a call whose
extracted text is empty fails (the empty-input rejection — either the
empty-upload or the empty-extraction branch) and leaves the cache mapping,
hence `cache_stats`, exactly as before; for an id already present the
idempotent early return takes precedence and the call succeeds with
`created = false`, also leaving the cache unchanged. -/
theorem C3_empty_text_rejection (cache : Cache) (file_id content : String)
    (extract : String → String) (filename : String)
    (habs : cache.lookup file_id = none) (ht : extract content = "") :
    (index_pdf cache file_id content extract filename).1.isOk = false
    ∧ (index_pdf cache file_id content extract filename).2 = cache
    ∧ cache_stats (index_pdf cache file_id content extract filename).2
        = cache_stats cache := by
  by_cases hc : content = "" <;>
    simp [index_pdf, index_pdf_inner, habs, hc, ht, Except.isOk, Except.toBool]

/-- C3 (witness): a fresh id whose upload extracts to empty text is
rejected and the cache stays empty. -/
theorem C3_empty_text_rejection_witness :
    ([] : Cache).lookup "doc1" = none
    ∧ ((fun _ => "") "raw bytes" : String) = ""
    ∧ (index_pdf [] "doc1" "raw bytes" (fun _ => "") "doc1.pdf").1.isOk
        = false
    ∧ (index_pdf [] "doc1" "raw bytes" (fun _ => "") "doc1.pdf").2 = []
    ∧ cache_stats (index_pdf [] "doc1" "raw bytes" (fun _ => "") "doc1.pdf").2
        = cache_stats [] :=
  ⟨rfl, rfl,
    C3_empty_text_rejection [] "doc1" "raw bytes" (fun _ => "") "doc1.pdf"
      rfl rfl⟩

/-- C4: querying an id absent from the cache fails with 404
`"File not indexed. Call /index_pdf first."` (the spec's
`NotIndexedError`) for every query string, every history — the membership
check precedes history parsing — and every provider configuration, and the
cache after the failing call is the cache before it. -/
theorem C4_unindexed_query (cache : Cache) (apiKey : Option String)
    (embed : String → Except String Vec)
    (parse : String → Option (List Message))
    (gen : List String → String → Option String)
    (file_id q chat_history : String)
    (habs : cache.lookup file_id = none) :
    query cache apiKey embed parse gen file_id q chat_history
      = (Except.error ⟨404, "File not indexed. Call /index_pdf first."⟩,
          cache) := by
  simp [query, habs]

/-- C4 (witness): a concrete query against an empty cache fails with the
404 error and leaves the cache empty. -/
theorem C4_unindexed_query_witness :
    ([] : Cache).lookup "doc1" = none
    ∧ query [] (some "key") (fun _ => Except.ok [1]) (fun _ => some [])
        (fun _ _ => none) "doc1" "what is this?" "[]"
      = (Except.error ⟨404, "File not indexed. Call /index_pdf first."⟩,
          []) :=
  ⟨rfl,
    C4_unindexed_query [] (some "key") (fun _ => Except.ok [1])
      (fun _ => some []) (fun _ _ => none) "doc1" "what is this?" "[]" rfl⟩

/-- C5: for a non-empty history, the effective query is the history
rendered one line per message — `"User: <content>"` for role `"user"`,
`"Assistant: <content>"` otherwise — newline-joined in input order and
prepended (as the `"Previous conversation:"` preamble before the
`"Current question:"` line) to the query; for an empty history it is the
query verbatim; and on a successful chain invocation the effective query is
the input carried by the result and the string the generation provider is
applied to, the retrieval input of the same invocation. -/
theorem C5_effective_query (messages : List Message) (q : String) :
    (messages ≠ [] →
      effective_query messages q
        = "Previous conversation:\n"
            ++ String.intercalate "\n"
                (messages.map fun msg =>
                  (if msg.role = "user" then "User" else "Assistant")
                    ++ ": " ++ msg.content)
            ++ "\n\nCurrent question: " ++ q)
    ∧ effective_query [] q = q
    ∧ ∀ (embed : String → Except String Vec)
        (gen : List String → String → Option String) (chain : RagChain)
        (result : RagResult),
        chain_ainvoke embed gen chain (effective_query messages q)
            = Except.ok result →
          result.input = effective_query messages q
          ∧ result.answer
              = gen result.context (effective_query messages q) := by
  refine ⟨?_, rfl, ?_⟩
  · intro h
    cases messages with
    | nil => exact absurd rfl h
    | cons m t => simp [effective_query, format_history_for_context]
  · intro embed gen chain result hres
    unfold chain_ainvoke at hres
    cases hret : retrieve embed chain.retriever (effective_query messages q)
      with
    | error e => rw [hret] at hres; cases hres
    | ok ctx =>
      rw [hret] at hres
      cases hres
      exact ⟨rfl, rfl⟩

/-- C5 (witness): a two-message history renders to the expected transcript
and preamble, and the result of a concrete successful invocation carries
that effective query as its input. -/
theorem C5_effective_query_witness :
    ([⟨"user", "hi"⟩, ⟨"assistant", "hello"⟩] : List Message) ≠ []
    ∧ effective_query [⟨"user", "hi"⟩, ⟨"assistant", "hello"⟩] "next?"
        = "Previous conversation:\n"
            ++ String.intercalate "\n"
                (([⟨"user", "hi"⟩, ⟨"assistant", "hello"⟩] :
                    List Message).map fun msg =>
                  (if msg.role = "user" then "User" else "Assistant")
                    ++ ": " ++ msg.content)
            ++ "\n\nCurrent question: " ++ "next?"
    ∧ chain_ainvoke (fun _ => Except.ok [1]) (fun _ _ => some "hi there")
          ⟨⟨⟨[("chunk", [1])]⟩, 3⟩⟩
          (effective_query [⟨"user", "hi"⟩, ⟨"assistant", "hello"⟩] "next?")
        = Except.ok
            ⟨effective_query [⟨"user", "hi"⟩, ⟨"assistant", "hello"⟩]
                "next?",
              ["chunk"], some "hi there"⟩
    ∧ (⟨effective_query [⟨"user", "hi"⟩, ⟨"assistant", "hello"⟩] "next?",
          ["chunk"], some "hi there"⟩ : RagResult).input
        = effective_query [⟨"user", "hi"⟩, ⟨"assistant", "hello"⟩] "next?"
    ∧ (⟨effective_query [⟨"user", "hi"⟩, ⟨"assistant", "hello"⟩] "next?",
          ["chunk"], some "hi there"⟩ : RagResult).answer
        = (fun _ _ => some "hi there") (["chunk"] : List String)
            (effective_query [⟨"user", "hi"⟩, ⟨"assistant", "hello"⟩]
              "next?") :=
  ⟨by decide,
    (C5_effective_query [⟨"user", "hi"⟩, ⟨"assistant", "hello"⟩] "next?").1
      (by decide),
    rfl,
    ((C5_effective_query [⟨"user", "hi"⟩, ⟨"assistant", "hello"⟩]
          "next?").2.2 (fun _ => Except.ok [1]) (fun _ _ => some "hi there")
        ⟨⟨⟨[("chunk", [1])]⟩, 3⟩⟩ _ rfl).1,
    ((C5_effective_query [⟨"user", "hi"⟩, ⟨"assistant", "hello"⟩]
          "next?").2.2 (fun _ => Except.ok [1]) (fun _ _ => some "hi there")
        ⟨⟨⟨[("chunk", [1])]⟩, 3⟩⟩ _ rfl).2⟩

/-- C6: when the query embeds successfully, `retrieve` over a retriever
with parameters `k` returns the scored chunks' texts: never more than `k`
of them, never more than the store holds, taken from a list ordered by
decreasing similarity score; and the retriever built by `get_retriever`
has the default `k = 3`. -/
theorem C6_retrieval_bounds (embed : String → Except String Vec)
    (vs : Vectorstore) (q : String) (k : Nat) (qv : Vec)
    (hq : embed q = Except.ok qv) :
    retrieve embed ⟨vs, k⟩ q
        = Except.ok ((retrieveScored qv vs k).map Prod.fst)
    ∧ ((retrieveScored qv vs k).map Prod.fst).length ≤ k
    ∧ ((retrieveScored qv vs k).map Prod.fst).length ≤ vs.docs.length
    ∧ List.Sorted byScore (retrieveScored qv vs k)
    ∧ (get_retriever vs).k = 3 := by
  have hlen : (retrieveScored qv vs k).length
      = min k (vs.docs.length) := by
    unfold retrieveScored
    rw [List.length_take, List.length_insertionSort byScore,
      List.length_map]
  refine ⟨by simp [retrieve, hq], ?_, ?_, ?_, rfl⟩
  · rw [List.length_map, hlen]; exact Nat.min_le_left _ _
  · rw [List.length_map, hlen]; exact Nat.min_le_right _ _
  · exact List.Pairwise.sublist (List.take_sublist k _)
      (List.sorted_insertionSort byScore _)

/-- C6 (witness): retrieving from a two-chunk store with `k = 1` returns
the single most similar chunk. -/
theorem C6_retrieval_bounds_witness :
    (fun _ : String => (Except.ok [1] : Except String Vec)) "find me"
      = Except.ok [1]
    ∧ (retrieve (fun _ => Except.ok [1])
          ⟨⟨[("low", [2]), ("high", [5])]⟩, 1⟩ "find me"
        = Except.ok
            ((retrieveScored [1] ⟨[("low", [2]), ("high", [5])]⟩ 1).map
              Prod.fst)
      ∧ ((retrieveScored [1] ⟨[("low", [2]), ("high", [5])]⟩ 1).map
            Prod.fst).length ≤ 1
      ∧ ((retrieveScored [1] ⟨[("low", [2]), ("high", [5])]⟩ 1).map
            Prod.fst).length
          ≤ (⟨[("low", [2]), ("high", [5])]⟩ : Vectorstore).docs.length
      ∧ List.Sorted byScore
          (retrieveScored [1] ⟨[("low", [2]), ("high", [5])]⟩ 1)
      ∧ (get_retriever ⟨[("low", [2]), ("high", [5])]⟩).k = 3) :=
  ⟨rfl,
    C6_retrieval_bounds (fun _ => Except.ok [1])
      ⟨[("low", [2]), ("high", [5])]⟩ "find me" 1 [1] rfl⟩

theorem lookup_filter_self {β : Type} (l : List (String × β))
    (key : String) :
    (l.filter fun p => p.1 != key).lookup key = none := by
  induction l with
  | nil => rfl
  | cons p t ih =>
    obtain ⟨k, b⟩ := p
    by_cases hk : k = key
    · subst hk
      simpa [List.filter] using ih
    · have hb : (k != key) = true := by simp [hk]
      have hb2 : (key == k) = false := by simp [Ne.symm hk]
      simp only [List.filter, hb, List.lookup, hb2]
      exact ih

/-- C7: when the query pipeline reaches generation — the id is cached, the
history parses, the chain builds and retrieval succeeds — the returned
answer is `result.get("answer", "No answer found.")`: the literal
`"No answer found."` when the provider returns no answer field, and the
answer field itself when it is present; either way the request does not
fail. -/
theorem C7_answer_fallback (cache : Cache) (apiKey : Option String)
    (embed : String → Except String Vec)
    (parse : String → Option (List Message))
    (gen : List String → String → Option String)
    (file_id q chat_history : String) (cached : CacheRecord)
    (messages : List Message) (chain : RagChain) (ctx : List String)
    (hid : cache.lookup file_id = some cached)
    (hp : parse chat_history = some messages)
    (hchain : create_pdf_chain apiKey embed cached.text = Except.ok chain)
    (hret : retrieve embed chain.retriever (effective_query messages q)
      = Except.ok ctx) :
    query cache apiKey embed parse gen file_id q chat_history
      = (Except.ok
          ((gen ctx (effective_query messages q)).getD "No answer found."),
          cache)
    ∧ (gen ctx (effective_query messages q) = none →
        (query cache apiKey embed parse gen file_id q chat_history).1
          = Except.ok "No answer found.")
    ∧ ∀ a, gen ctx (effective_query messages q) = some a →
        (query cache apiKey embed parse gen file_id q chat_history).1
          = Except.ok a := by
  have hmain : query cache apiKey embed parse gen file_id q chat_history
      = (Except.ok
          ((gen ctx (effective_query messages q)).getD "No answer found."),
          cache) := by
    simp [query, hid, hp, hchain, chain_ainvoke, hret]
  refine ⟨hmain, ?_, ?_⟩
  · intro hnone
    rw [hmain, hnone]
    rfl
  · intro a ha
    rw [hmain, ha]
    rfl

/-- C7 (witness): the same concrete pipeline once with a provider that
returns no answer field (falling back to `"No answer found."`) and once
with a provider answering `"yes"`. -/
theorem C7_answer_fallback_witness :
    ([("d", (⟨"hello", "f.pdf", 5⟩ : CacheRecord))] : Cache).lookup "d"
        = some ⟨"hello", "f.pdf", 5⟩
    ∧ (fun _ : String => some ([] : List Message)) "[]" = some []
    ∧ create_pdf_chain (some "key") (fun _ => Except.ok [1]) "hello"
        = Except.ok ⟨⟨⟨[("hello", [1])]⟩, 3⟩⟩
    ∧ retrieve (fun _ => Except.ok [1]) (⟨⟨[("hello", [1])]⟩, 3⟩ : Retriever)
          (effective_query [] "hi")
        = Except.ok ["hello"]
    ∧ (query [("d", ⟨"hello", "f.pdf", 5⟩)] (some "key")
          (fun _ => Except.ok [1]) (fun _ => some []) (fun _ _ => none) "d"
          "hi" "[]").1
        = Except.ok "No answer found."
    ∧ (query [("d", ⟨"hello", "f.pdf", 5⟩)] (some "key")
          (fun _ => Except.ok [1]) (fun _ => some [])
          (fun _ _ => some "yes") "d" "hi" "[]").1
        = Except.ok "yes" :=
  ⟨rfl, rfl, rfl, rfl,
    (C7_answer_fallback [("d", ⟨"hello", "f.pdf", 5⟩)] (some "key")
        (fun _ => Except.ok [1]) (fun _ => some []) (fun _ _ => none) "d"
        "hi" "[]" ⟨"hello", "f.pdf", 5⟩ [] ⟨⟨⟨[("hello", [1])]⟩, 3⟩⟩
        ["hello"] rfl rfl rfl rfl).2.1 rfl,
    (C7_answer_fallback [("d", ⟨"hello", "f.pdf", 5⟩)] (some "key")
        (fun _ => Except.ok [1]) (fun _ => some [])
        (fun _ _ => some "yes") "d" "hi" "[]" ⟨"hello", "f.pdf", 5⟩ []
        ⟨⟨⟨[("hello", [1])]⟩, 3⟩⟩ ["hello"] rfl rfl rfl rfl).2.2 "yes" rfl⟩

/-- C8: `delete_from_cache` on an absent id fails with 404
`"File not found in cache"` (the spec's `NotIndexedError`) and leaves the
cache unchanged; on a present id it reports the removed record's
`file_name`, the id no longer resolves afterwards, and a subsequent query
for it fails with the 404 `NotIndexedError` of the query path. -/
theorem C8_remove (cache : Cache) (file_id : String) :
    (cache.lookup file_id = none →
      delete_from_cache cache file_id
        = (Except.error ⟨404, "File not found in cache"⟩, cache))
    ∧ ∀ info, cache.lookup file_id = some info →
        (delete_from_cache cache file_id).1
            = Except.ok ("Removed " ++ info.file_name ++ " from cache")
        ∧ (delete_from_cache cache file_id).2.lookup file_id = none
        ∧ ∀ (apiKey : Option String) (embed : String → Except String Vec)
            (parse : String → Option (List Message))
            (gen : List String → String → Option String) (q ch : String),
            query (delete_from_cache cache file_id).2 apiKey embed parse
                gen file_id q ch
              = (Except.error
                  ⟨404, "File not indexed. Call /index_pdf first."⟩,
                  (delete_from_cache cache file_id).2) := by
  constructor
  · intro h
    simp [delete_from_cache, h]
  · intro info h
    have h2 : (delete_from_cache cache file_id).2.lookup file_id = none := by
      simp only [delete_from_cache, h]
      exact lookup_filter_self cache file_id
    exact ⟨by simp [delete_from_cache, h], h2,
      fun apiKey embed parse gen q ch => by simp [query, h2]⟩

/-- C8 (witness): removing the only cached document reports its display
name, and the id then neither resolves nor serves queries. -/
theorem C8_remove_witness :
    ([("d", (⟨"text", "f.pdf", 4⟩ : CacheRecord))] : Cache).lookup "d"
        = some ⟨"text", "f.pdf", 4⟩
    ∧ (delete_from_cache [("d", ⟨"text", "f.pdf", 4⟩)] "d").1
        = Except.ok ("Removed " ++ "f.pdf" ++ " from cache")
    ∧ (delete_from_cache [("d", ⟨"text", "f.pdf", 4⟩)] "d").2.lookup "d"
        = none
    ∧ query (delete_from_cache [("d", ⟨"text", "f.pdf", 4⟩)] "d").2 none
          (fun _ => Except.error "down") (fun _ => none) (fun _ _ => none)
          "d" "hi" "[]"
        = (Except.error ⟨404, "File not indexed. Call /index_pdf first."⟩,
            (delete_from_cache [("d", ⟨"text", "f.pdf", 4⟩)] "d").2) := by
  have h := (C8_remove [("d", ⟨"text", "f.pdf", 4⟩)] "d").2
    ⟨"text", "f.pdf", 4⟩ rfl
  exact ⟨rfl, h.1, h.2.1,
    h.2.2 none (fun _ => Except.error "down") (fun _ => none)
      (fun _ _ => none) "hi" "[]"⟩

/-- C9: `clear_cache` empties the cache and reports the number of entries
it removed, and `cache_stats` immediately afterwards reports zero indexed
files with an empty per-id list. -/
theorem C9_clear (cache : Cache) :
    clear_cache cache
      = ("Cleared " ++ toString cache.length ++ " files from cache", [])
    ∧ cache_stats (clear_cache cache).2 = ⟨0, []⟩ :=
  ⟨rfl, rfl⟩

/-- C10: the query operation never writes to the cache — its resulting
cache is its input cache on every path; every `CacheRecord` consists of
nothing but the text, the display name and the text length (no index
component exists to be stored or shared); and whenever a query for a
cached id reaches retrieval, the index it searches is
`create_faiss_index` applied — at query time — to that record's cached
text, re-chunking and re-embedding it, with the fresh `k = 3` retriever
over it. -/
theorem C10_fresh_index_per_query (cache : Cache) (apiKey : Option String)
    (embed : String → Except String Vec)
    (parse : String → Option (List Message))
    (gen : List String → String → Option String)
    (file_id q chat_history : String) :
    (query cache apiKey embed parse gen file_id q chat_history).2 = cache
    ∧ (∀ r : CacheRecord, r = ⟨r.text, r.file_name, r.text_length⟩)
    ∧ ∀ (cached : CacheRecord) (messages : List Message) (key : String)
        (vs : Vectorstore) (qv : Vec),
        cache.lookup file_id = some cached →
        parse chat_history = some messages →
        apiKey = some key →
        create_faiss_index embed cached.text = Except.ok vs →
        embed (effective_query messages q) = Except.ok qv →
        query cache apiKey embed parse gen file_id q chat_history
          = (Except.ok
              ((gen ((retrieveScored qv vs (get_retriever vs).k).map
                    Prod.fst)
                  (effective_query messages q)).getD "No answer found."),
              cache) := by
  refine ⟨?_, fun r => rfl, ?_⟩
  · unfold query
    repeat' split
    all_goals rfl
  · intro cached messages key vs qv hid hp hkey hvs hqv
    subst hkey
    simp [query, hid, hp, create_pdf_chain, hvs, chain_ainvoke, retrieve,
      hqv, get_retriever]

/-- C10 (witness): a concrete query whose retrieval context is exactly the
top-3 similarity search over the index freshly built from the cached text,
with the cache returned untouched. -/
theorem C10_fresh_index_per_query_witness :
    (query [("d", (⟨"hello", "f.pdf", 5⟩ : CacheRecord))] (some "key")
        (fun _ => Except.ok [1]) (fun _ => some [])
        (fun _ _ => some "yes") "d" "hi" "[]").2
      = [("d", ⟨"hello", "f.pdf", 5⟩)]
    ∧ ((⟨"hello", "f.pdf", 5⟩ : CacheRecord)
        = ⟨(⟨"hello", "f.pdf", 5⟩ : CacheRecord).text,
            (⟨"hello", "f.pdf", 5⟩ : CacheRecord).file_name,
            (⟨"hello", "f.pdf", 5⟩ : CacheRecord).text_length⟩)
    ∧ query [("d", ⟨"hello", "f.pdf", 5⟩)] (some "key")
          (fun _ => Except.ok [1]) (fun _ => some [])
          (fun _ _ => some "yes") "d" "hi" "[]"
        = (Except.ok
            (((fun _ _ => some "yes" :
                  List String → String → Option String)
                ((retrieveScored [1] ⟨[("hello", [1])]⟩
                    (get_retriever ⟨[("hello", [1])]⟩).k).map Prod.fst)
                (effective_query [] "hi")).getD "No answer found."),
            [("d", ⟨"hello", "f.pdf", 5⟩)]) :=
  ⟨(C10_fresh_index_per_query [("d", ⟨"hello", "f.pdf", 5⟩)] (some "key")
      (fun _ => Except.ok [1]) (fun _ => some [])
      (fun _ _ => some "yes") "d" "hi" "[]").1,
    (C10_fresh_index_per_query [("d", ⟨"hello", "f.pdf", 5⟩)] (some "key")
      (fun _ => Except.ok [1]) (fun _ => some [])
      (fun _ _ => some "yes") "d" "hi" "[]").2.1 ⟨"hello", "f.pdf", 5⟩,
    (C10_fresh_index_per_query [("d", ⟨"hello", "f.pdf", 5⟩)] (some "key")
      (fun _ => Except.ok [1]) (fun _ => some [])
      (fun _ _ => some "yes") "d" "hi" "[]").2.2 ⟨"hello", "f.pdf", 5⟩ []
      "key" ⟨[("hello", [1])]⟩ [1] rfl rfl rfl rfl rfl⟩

